import Mathlib

/-!
Verification of the EnformionGO API wrapper (`src/main.py`, `src/config.py`)
against its natural-language specification.

The development shallowly embeds the credential-and-transport resolver
(`call_enformion_api`), the two validation-gate dependencies
(`validate_contact_enrichment_request`, `validate_id_verification_request`)
and representative route handlers.  Python optional-string values are
`Option String`; Python truthiness (`None` and `""` are falsy) is `truthy`;
the network is a single explicitly-passed outcome, and the resolver returns a
trace recording its result, the outbound POSTs it issued and its error log
lines.
-/

namespace EnformionGO

/-- JSON values, as far as the proxy manipulates them: it only ever builds
objects of string fields from request models and forwards opaque caller
payloads, so strings, objects, arrays, integers, booleans and null suffice. -/
inductive JsonVal where
  | null : JsonVal
  | bool (b : Bool) : JsonVal
  | num (n : Int) : JsonVal
  | str (s : String) : JsonVal
  | arr (elems : List JsonVal) : JsonVal
  | obj (fields : List (String × JsonVal)) : JsonVal

/-- Python truthiness of an optional string: `None` and `""` are falsy. -/
def truthy : Option String → Bool
  | none => false
  | some s => decide (s ≠ "")

/-- Python truthiness of a list value (`if request.phones:`). -/
def listTruthy (l : List String) : Bool := decide (l ≠ [])

/-- Python `a or b` on optional strings: yields `a` when `a` is truthy,
otherwise `b` (which may itself be `None` or empty). -/
def pyOr (a b : Option String) : Option String :=
  if truthy a then a else b

/-- Python `a or "default"` where the default is a non-empty literal, as used
for the `galaxy-search-type` fallback in every route handler. -/
def pyOrDefault (a : Option String) (d : String) : String :=
  match a with
  | none => d
  | some s => if s = "" then d else s

/-- The slice of `config.Settings` the verified components read: optional
default credentials plus the fixed upstream URL constants (`src/config.py`). -/
structure Settings where
  GALAXY_AP_NAME : Option String := none
  GALAXY_AP_PASSWORD : Option String := none
  PERSON_SEARCH_API_URL : String := "https://devapi.enformion.com/PersonSearch"
  CONTACT_ENRICHMENT_API_URL : String := "https://devapi.enformion.com/Contact/Enrich"
  ID_VERIFICATION_API_URL : String := "https://devapi.enformion.com/Identity/Verify_Id"
  BUSINESS_SEARCH_V2_API_URL : String := "https://devapi.enformion.com/BusinessV2Search"
  CONTACT_ENRICHMENT_PLUS_API_URL : String := "https://devapi.enformion.com/Contact/EnrichPlus"
deriving DecidableEq, Repr

/-- Outcome of the single outbound HTTP POST, when one is attempted:
a timeout (`httpx.TimeoutException`), another transport failure
(`httpx.RequestError`), or a response with a status code, raw text body, and
the result of parsing that body as JSON (`none` when the text is not JSON). -/
inductive HttpOutcome where
  | timeout (cause : String) : HttpOutcome
  | requestError (cause : String) : HttpOutcome
  | response (status : Nat) (text : String) (jsonBody : Option JsonVal) : HttpOutcome

/-- Result of one resolver invocation, mirroring the exception taxonomy of
`call_enformion_api`: `apiConnectionError` is a raised `APIConnectionError`
(used both for unresolved credentials and for transport failures),
`invalidRequestError` a raised `InvalidRequestError`, `success` the parsed
JSON returned to the caller, and `jsonDecodeFailure` the uncaught exception
escaping from `response.json()` on an unparseable 2xx body. -/
inductive CallResult where
  | apiConnectionError (msg : String) : CallResult
  | invalidRequestError (msg : String) : CallResult
  | success (body : JsonVal) : CallResult
  | jsonDecodeFailure : CallResult

/-- One outbound POST as issued by the resolver: destination URL, JSON body,
header list in insertion order, and the fixed timeout in seconds. -/
structure OutboundPost where
  url : String
  body : JsonVal
  headers : List (String × String)
  timeoutSeconds : Nat

/-- Full observable behaviour of one resolver invocation. -/
structure CallTrace where
  result : CallResult
  posts : List OutboundPost
  errorLogs : List String

/-- The credentials-missing message raised in `call_enformion_api`
(`src/main.py` lines 113-116). -/
def credentialsErrorMsg : String :=
  "API credentials are not configured. Provide (GALAXY_AP_NAME, GALAXY_AP_PASSWORD) via env/.env, or pass them as request headers (galaxy-ap-name, galaxy-ap-password)."

/-- The generic message of the `InvalidRequestError` raised on a non-2xx
upstream status (`src/main.py` line 142). -/
def upstreamRejectionMsg : String :=
  "The request to the upstream service failed."

/-- The `logger.error` line emitted on a non-2xx upstream status
(`src/main.py` lines 139-141). -/
def nonSuccessLogLine (status : Nat) (text : String) : String :=
  "Invalid request to EnformionGO API. Status: " ++ toString status ++ ", Response: " ++ text

/-- Embedding of `httpx.Response.raise_for_status`: it raises exactly when the
status is not a 2xx success code. -/
def is2xx (status : Nat) : Bool := 200 ≤ status && status < 300

/-- A conditionally-added header: `if value: headers[key] = value`. -/
def optHeader (key : String) (value : Option String) : List (String × String) :=
  match value with
  | none => []
  | some s => if s = "" then [] else [(key, s)]

/-- The outbound header set built in `call_enformion_api` (lines 118-128):
the four mandatory headers in dict-insertion order, then
`galaxy-client-session-id` and `galaxy-client-type` only when truthy. -/
def buildHeaders (ap_name ap_password search_type : String)
    (galaxy_client_session_id galaxy_client_type : Option String) :
    List (String × String) :=
  [("galaxy-ap-name", ap_name),
   ("galaxy-ap-password", ap_password),
   ("galaxy-search-type", search_type),
   ("Content-Type", "application/json")]
  ++ optHeader "galaxy-client-session-id" galaxy_client_session_id
  ++ optHeader "galaxy-client-type" galaxy_client_type

/-- Shallow embedding of `call_enformion_api` (`src/main.py` lines 95-143).
Credential resolution is Python `or` (so empty-string overrides fall back);
an unresolved name or password raises `APIConnectionError` before any POST;
otherwise exactly one POST is issued and its outcome `net` is classified:
timeout and transport errors become `APIConnectionError` carrying the cause,
a non-2xx status is logged (status and raw body) and becomes the generic
`InvalidRequestError`, and a 2xx body is returned parsed, an unparseable one
escaping as `jsonDecodeFailure`. -/
def call_enformion_api (api_url search_type : String) (request_body : JsonVal)
    (settings : Settings)
    (galaxy_ap_name galaxy_ap_password : Option String)
    (galaxy_client_session_id galaxy_client_type : Option String)
    (net : HttpOutcome) : CallTrace :=
  let ap_name := pyOr galaxy_ap_name settings.GALAXY_AP_NAME
  let ap_password := pyOr galaxy_ap_password settings.GALAXY_AP_PASSWORD
  if !truthy ap_name || !truthy ap_password then
    { result := .apiConnectionError credentialsErrorMsg, posts := [], errorLogs := [] }
  else
    let headers := buildHeaders (ap_name.getD "") (ap_password.getD "") search_type
      galaxy_client_session_id galaxy_client_type
    let post : OutboundPost :=
      { url := api_url, body := request_body, headers := headers, timeoutSeconds := 15 }
    match net with
    | .timeout cause =>
        { result := .apiConnectionError ("Request to EnformionGO API timed out: " ++ cause),
          posts := [post], errorLogs := [] }
    | .requestError cause =>
        { result := .apiConnectionError ("Error communicating with EnformionGO API: " ++ cause),
          posts := [post], errorLogs := [] }
    | .response status text jsonBody =>
        if is2xx status then
          match jsonBody with
          | some j => { result := .success j, posts := [post], errorLogs := [] }
          | none => { result := .jsonDecodeFailure, posts := [post], errorLogs := [] }
        else
          { result := .invalidRequestError upstreamRejectionMsg,
            posts := [post],
            errorLogs := [nonSuccessLogLine status text] }

/-- Contact-enrichment request model.  Modelled from the spec: the pydantic
model `ContactEnrichmentRequest` lives in `models.py`, which is not part of
the verified sources; the spec describes optional first/middle/last name,
phone, address and email fields, embedded here as optional strings with
Python truthiness.  The validator that consumes it is in `src/main.py`. -/
structure ContactEnrichmentRequest where
  first_name : Option String := none
  middle_name : Option String := none
  last_name : Option String := none
  phone : Option String := none
  address : Option String := none
  email : Option String := none
deriving DecidableEq, Repr

/-- Identity-verification request model.  Modelled from the spec: the
pydantic model `IdVerificationRequest` lives in `models.py`, which is not
part of the verified sources; the spec describes optional name parts,
a phones list, two address lines, an emails list and an optional ssn. -/
structure IdVerificationRequest where
  first_name : Option String := none
  middle_name : Option String := none
  last_name : Option String := none
  phones : List String := []
  address_line_1 : Option String := none
  address_line_2 : Option String := none
  emails : List String := []
  ssn : Option String := none
deriving DecidableEq, Repr

/-- Business-search request model.  Modelled from the spec: the pydantic
model `BusinessSearchRequest` lives in `models.py`, which is not part of the
verified sources; it is represented by its parsed optional-field assignment,
with `model_dump(by_alias=True, exclude_none=True)` producing the JSON
object of the fields that are present. -/
structure BusinessSearchRequest where
  presentFields : List (String × JsonVal)

/-- Embedding of `BusinessSearchRequest.model_dump(by_alias=True, exclude_none=True)`. -/
def BusinessSearchRequest.model_dump (r : BusinessSearchRequest) : JsonVal :=
  .obj r.presentFields

/-- Validation-error detail string of `validate_contact_enrichment_request`
(`src/main.py` line 68). -/
def contactEnrichmentDetail : String :=
  "Contact Enrichment requires at least two search criteria from: Name, Phone, Address, or Email."

/-- Validation-error detail string of `validate_id_verification_request`
(`src/main.py` line 89). -/
def idVerificationDetail : String :=
  "ID Verification requires at least two criteria from: SSN, Name, Phone, Address, or Email."

/-- An HTTP error raised locally: status code and detail message, mirroring
`fastapi.HTTPException(status_code, detail)`. -/
structure HttpError where
  status_code : Nat
  detail : String
deriving DecidableEq, Repr

/-- The criteria count computed by `validate_contact_enrichment_request`
(`src/main.py` lines 54-63): a name (any of its three parts) counts once,
then phone, address and email each count once. -/
def contact_criteria_count (request : ContactEnrichmentRequest) : Nat :=
  (if truthy request.first_name || truthy request.middle_name || truthy request.last_name
    then 1 else 0)
  + (if truthy request.phone then 1 else 0)
  + (if truthy request.address then 1 else 0)
  + (if truthy request.email then 1 else 0)

/-- Shallow embedding of `validate_contact_enrichment_request`
(`src/main.py` lines 52-70): reject with HTTP 400 when fewer than two
criteria are populated, otherwise return the request unchanged. -/
def validate_contact_enrichment_request (request : ContactEnrichmentRequest) :
    Except HttpError ContactEnrichmentRequest :=
  if contact_criteria_count request < 2 then
    .error { status_code := 400, detail := contactEnrichmentDetail }
  else
    .ok request

/-- The criteria count computed by `validate_id_verification_request`
(`src/main.py` lines 74-84). -/
def id_verification_criteria_count (request : IdVerificationRequest) : Nat :=
  (if truthy request.first_name || truthy request.middle_name || truthy request.last_name
    then 1 else 0)
  + (if listTruthy request.phones then 1 else 0)
  + (if truthy request.address_line_1 || truthy request.address_line_2 then 1 else 0)
  + (if listTruthy request.emails then 1 else 0)
  + (if truthy request.ssn then 1 else 0)

/-- Shallow embedding of `validate_id_verification_request`
(`src/main.py` lines 72-91). -/
def validate_id_verification_request (request : IdVerificationRequest) :
    Except HttpError IdVerificationRequest :=
  if id_verification_criteria_count request < 2 then
    .error { status_code := 400, detail := idVerificationDetail }
  else
    .ok request

/-- An optional-string field of a request model as serialized by
`model_dump(exclude_none=True)`: a `None` field is omitted, any present
string (including the empty string) is kept. -/
def optField (key : String) (value : Option String) : List (String × JsonVal) :=
  match value with
  | none => []
  | some s => [(key, .str s)]

/-- The field list of `ContactEnrichmentRequest.model_dump(by_alias=True,
exclude_none=True)` as invoked by the `/contact-enrichment` handler
(`src/main.py` line 189): the fields that are not `None`, present values
kept verbatim.  Modelled from the spec: the field aliases declared in the
absent `models.py` are embedded as the identity, which the claims under
verification do not depend on. -/
def ContactEnrichmentRequest.dumpFields (r : ContactEnrichmentRequest) :
    List (String × JsonVal) :=
  optField "first_name" r.first_name ++ optField "middle_name" r.middle_name
    ++ optField "last_name" r.last_name ++ optField "phone" r.phone
    ++ optField "address" r.address ++ optField "email" r.email

/-- Embedding of `ContactEnrichmentRequest.model_dump(by_alias=True, exclude_none=True)`. -/
def ContactEnrichmentRequest.model_dump (r : ContactEnrichmentRequest) : JsonVal :=
  .obj r.dumpFields

/-- The optional override headers accepted by every POST route handler, with
the alias strings declared in their `Header(None, alias=...)` parameters
(`src/main.py`, e.g. lines 182-186). -/
def overrideHeaderAliases : List String :=
  ["galaxy-ap-name", "galaxy-ap-password", "galaxy-client-session-id",
   "galaxy-client-type", "galaxy-search-type"]

/-- The five override header values a route handler receives (each `none`
when the inbound request omitted the header). -/
structure Overrides where
  galaxy_ap_name : Option String := none
  galaxy_ap_password : Option String := none
  galaxy_client_session_id : Option String := none
  galaxy_client_type : Option String := none
  galaxy_search_type : Option String := none
deriving DecidableEq, Repr

/-- Shallow embedding of the `/contact-enrichment` handler (`src/main.py`
lines 178-199): the validation dependency runs first and a validation
failure surfaces as the HTTP error without the resolver being invoked;
otherwise the dumped body is forwarded through `call_enformion_api` with the
`galaxy-search-type` fallback `"DevAPIContactEnrich"`. -/
def contact_enrichment (search_request : ContactEnrichmentRequest)
    (settings : Settings) (ov : Overrides) (net : HttpOutcome) :
    Except HttpError CallTrace :=
  match validate_contact_enrichment_request search_request with
  | .error e => .error e
  | .ok validated =>
      .ok (call_enformion_api settings.CONTACT_ENRICHMENT_API_URL
        (pyOrDefault ov.galaxy_search_type "DevAPIContactEnrich")
        validated.model_dump settings
        ov.galaxy_ap_name ov.galaxy_ap_password
        ov.galaxy_client_session_id ov.galaxy_client_type net)

/-- Shallow embedding of the `/id-verification` handler (`src/main.py`
lines 365-386).  `IdVerificationRequest.model_dump` is abstracted by the
`dumped` argument since the claims about this route concern only its
validation gate. -/
def id_verification (search_request : IdVerificationRequest) (dumped : JsonVal)
    (settings : Settings) (ov : Overrides) (net : HttpOutcome) :
    Except HttpError CallTrace :=
  match validate_id_verification_request search_request with
  | .error e => .error e
  | .ok _ =>
      .ok (call_enformion_api settings.ID_VERIFICATION_API_URL
        (pyOrDefault ov.galaxy_search_type "DevAPIIDVerification")
        dumped settings
        ov.galaxy_ap_name ov.galaxy_ap_password
        ov.galaxy_client_session_id ov.galaxy_client_type net)

/-- Shallow embedding of the `/contact-enrichment-plus` handler
(`src/main.py` lines 621-641): the open JSON payload is forwarded verbatim
with the `galaxy-search-type` fallback `"ContactEnrichPlus"`. -/
def contact_enrichment_plus (payload : JsonVal)
    (settings : Settings) (ov : Overrides) (net : HttpOutcome) : CallTrace :=
  call_enformion_api settings.CONTACT_ENRICHMENT_PLUS_API_URL
    (pyOrDefault ov.galaxy_search_type "ContactEnrichPlus")
    payload settings
    ov.galaxy_ap_name ov.galaxy_ap_password
    ov.galaxy_client_session_id ov.galaxy_client_type net

/-- Shallow embedding of the `/business-search` handler (`src/main.py`
lines 487-510): note it posts to `BUSINESS_SEARCH_V2_API_URL` with default
search type `"BusinessV2Search"`. -/
def business_search (search_request : BusinessSearchRequest)
    (settings : Settings) (ov : Overrides) (net : HttpOutcome) : CallTrace :=
  call_enformion_api settings.BUSINESS_SEARCH_V2_API_URL
    (pyOrDefault ov.galaxy_search_type "BusinessV2Search")
    search_request.model_dump settings
    ov.galaxy_ap_name ov.galaxy_ap_password
    ov.galaxy_client_session_id ov.galaxy_client_type net

/-- Shallow embedding of the `/business-search-v2` handler (`src/main.py`
lines 512-537): same request model, destination URL and default search type
as `/business-search`. -/
def business_search_v2 (search_request : BusinessSearchRequest)
    (settings : Settings) (ov : Overrides) (net : HttpOutcome) : CallTrace :=
  call_enformion_api settings.BUSINESS_SEARCH_V2_API_URL
    (pyOrDefault ov.galaxy_search_type "BusinessV2Search")
    search_request.model_dump settings
    ov.galaxy_ap_name ov.galaxy_ap_password
    ov.galaxy_client_session_id ov.galaxy_client_type net

/-- The `PersonSearchType` enum of `src/main.py` lines 46-48: a string enum
with members `"Person"` and `"Teaser"`. -/
inductive PersonSearchType where
  | person : PersonSearchType
  | teaser : PersonSearchType
deriving DecidableEq, Repr

/-- The string value of a `PersonSearchType` member. -/
def PersonSearchType.value : PersonSearchType → String
  | .person => "Person"
  | .teaser => "Teaser"

/-- Stands for the framework-generated body of the 422 validation error
FastAPI returns when a header value fails enum validation; the claims under
verification depend only on the rejection, not on this text. -/
def personSearchTypeValidationDetail : String :=
  "Input should be Person or Teaser"

/-- Validation of the inbound `galaxy-search-type` header of `/person-search`
(`src/main.py` lines 321-323): the parameter is typed `PersonSearchType`
with default `PersonSearchType.person`, so per FastAPI semantics an omitted
header yields the default, the two member strings parse, and any other
value — the empty string included — is rejected with a 422 validation error
before the handler body runs. -/
def parse_person_search_type : Option String → Except HttpError PersonSearchType
  | none => .ok .person
  | some s =>
      if s = "Person" then .ok .person
      else if s = "Teaser" then .ok .teaser
      else .error { status_code := 422, detail := personSearchTypeValidationDetail }

/-- Shallow embedding of the `/person-search` handler (`src/main.py` lines
317-340): unlike every other handler, its `galaxy-search-type` header is
enum-typed with a default rather than `str | None` with an `or` fallback,
and the enum member's value is forwarded as the search-type tag.
`PersonSearchRequest.model_dump` is abstracted by the `dumped` argument
since the claims about this route concern only its header handling. -/
def person_search (dumped : JsonVal) (settings : Settings) (ov : Overrides)
    (net : HttpOutcome) : Except HttpError CallTrace :=
  match parse_person_search_type ov.galaxy_search_type with
  | .error e => .error e
  | .ok t =>
      .ok (call_enformion_api settings.PERSON_SEARCH_API_URL t.value dumped settings
        ov.galaxy_ap_name ov.galaxy_ap_password
        ov.galaxy_client_session_id ov.galaxy_client_type net)

/-- Concrete open payload used by the C8 witness. -/
def samplePayload : JsonVal := .obj [("FirstName", .str "Jane")]

/-- Concrete settings with configured credentials, used by witnesses and
counterexamples. -/
def sampleSettings : Settings :=
  { GALAXY_AP_NAME := some "acct", GALAXY_AP_PASSWORD := some "secret" }

/-- The single POST issued by `/contact-enrichment-plus` for `samplePayload`
under `sampleSettings` with no overrides. -/
def samplePlusPost : OutboundPost :=
  { url := sampleSettings.CONTACT_ENRICHMENT_PLUS_API_URL, body := samplePayload,
    headers := buildHeaders "acct" "secret" "ContactEnrichPlus" none none,
    timeoutSeconds := 15 }

/-- `ContainsStr pat s` holds when `pat` occurs contiguously in `s`; used to
state that an error message names a criterion or mentions a remedy. -/
def ContainsStr (pat s : String) : Prop := ∃ a b, s = a ++ pat ++ b

/-- Spec-side criteria groups for contact enrichment, written directly from
the spec's wording: {any of first/middle/last name}, {phone}, {address},
{email}. -/
def contactSpecGroups (r : ContactEnrichmentRequest) : List Bool :=
  [truthy r.first_name || truthy r.middle_name || truthy r.last_name,
   truthy r.phone, truthy r.address, truthy r.email]

/-- Spec-side populated-group count for contact enrichment. -/
def contactSpecCount (r : ContactEnrichmentRequest) : Nat :=
  (contactSpecGroups r).count true

/-- Spec-side criteria groups for identity verification: {any name part},
{phones list non-empty}, {any of address line 1/2}, {emails list non-empty},
{ssn}. -/
def idSpecGroups (r : IdVerificationRequest) : List Bool :=
  [truthy r.first_name || truthy r.middle_name || truthy r.last_name,
   listTruthy r.phones,
   truthy r.address_line_1 || truthy r.address_line_2,
   listTruthy r.emails, truthy r.ssn]

/-- Spec-side populated-group count for identity verification. -/
def idSpecCount (r : IdVerificationRequest) : Nat :=
  (idSpecGroups r).count true

/-- Spec-side field serialization: a field survives only when truthy, i.e.
both empty and absent values are removed. -/
def specField (key : String) (value : Option String) : List (String × JsonVal) :=
  if truthy value then [(key, .str (value.getD ""))] else []

/-- The caller's input with empty and absent optional fields removed — the
transformation the spec's round-trip property asserts for schema-backed
endpoints, written from the spec's words for comparison with the code's
`model_dump(exclude_none=True)`. -/
def specStrippedBody (r : ContactEnrichmentRequest) : JsonVal :=
  .obj (specField "first_name" r.first_name ++ specField "middle_name" r.middle_name
    ++ specField "last_name" r.last_name ++ specField "phone" r.phone
    ++ specField "address" r.address ++ specField "email" r.email)

theorem optHeader_map_fst (k : String) (v : Option String) :
    (optHeader k v).map Prod.fst = if truthy v then [k] else [] := by
  unfold optHeader truthy
  cases v with
  | none => simp
  | some s => by_cases h : s = "" <;> simp [h]

theorem buildHeaders_map_fst (an ap st : String) (sid ct : Option String) :
    (buildHeaders an ap st sid ct).map Prod.fst =
      ["galaxy-ap-name", "galaxy-ap-password", "galaxy-search-type", "Content-Type"]
      ++ (if truthy sid then ["galaxy-client-session-id"] else [])
      ++ (if truthy ct then ["galaxy-client-type"] else []) := by
  unfold buildHeaders
  simp [optHeader_map_fst]

theorem contact_count_eq_spec (r : ContactEnrichmentRequest) :
    contact_criteria_count r = contactSpecCount r := by
  simp only [contact_criteria_count, contactSpecCount, contactSpecGroups]
  cases (truthy r.first_name || truthy r.middle_name || truthy r.last_name) <;>
    cases truthy r.phone <;> cases truthy r.address <;> cases truthy r.email <;> rfl

theorem id_count_eq_spec (r : IdVerificationRequest) :
    id_verification_criteria_count r = idSpecCount r := by
  simp only [id_verification_criteria_count, idSpecCount, idSpecGroups]
  cases (truthy r.first_name || truthy r.middle_name || truthy r.last_name) <;>
    cases listTruthy r.phones <;>
    cases (truthy r.address_line_1 || truthy r.address_line_2) <;>
    cases listTruthy r.emails <;> cases truthy r.ssn <;> rfl

theorem validate_contact_reject (r : ContactEnrichmentRequest)
    (h : contactSpecCount r < 2) :
    validate_contact_enrichment_request r =
      .error { status_code := 400, detail := contactEnrichmentDetail } := by
  unfold validate_contact_enrichment_request
  rw [contact_count_eq_spec]
  simp [h]

theorem validate_id_reject (r : IdVerificationRequest)
    (h : idSpecCount r < 2) :
    validate_id_verification_request r =
      .error { status_code := 400, detail := idVerificationDetail } := by
  unfold validate_id_verification_request
  rw [id_count_eq_spec]
  simp [h]

theorem call_unresolved (url st : String) (body : JsonVal) (s : Settings)
    (n p sid ct : Option String) (net : HttpOutcome)
    (h : truthy (pyOr n s.GALAXY_AP_NAME) = false ∨
      truthy (pyOr p s.GALAXY_AP_PASSWORD) = false) :
    call_enformion_api url st body s n p sid ct net =
      { result := .apiConnectionError credentialsErrorMsg, posts := [], errorLogs := [] } := by
  unfold call_enformion_api
  rcases h with h | h <;> simp [h]

theorem call_posts_resolved (url st : String) (body : JsonVal) (s : Settings)
    (n p sid ct : Option String) (net : HttpOutcome)
    (hn : truthy (pyOr n s.GALAXY_AP_NAME) = true)
    (hp : truthy (pyOr p s.GALAXY_AP_PASSWORD) = true) :
    (call_enformion_api url st body s n p sid ct net).posts =
      [{ url := url, body := body,
         headers := buildHeaders ((pyOr n s.GALAXY_AP_NAME).getD "")
           ((pyOr p s.GALAXY_AP_PASSWORD).getD "") st sid ct,
         timeoutSeconds := 15 }] := by
  unfold call_enformion_api
  simp only [hn, hp]
  cases net with
  | timeout c => simp
  | requestError c => simp
  | response status text j =>
      by_cases h2 : is2xx status = true
      · simp only [h2]
        cases j <;> simp
      · simp [h2]

/-- C1: the resolver prefers a truthy per-call override and otherwise falls
back to the configured default, independently for account name and secret;
if either effective value is still absent it fails with the configuration
error — whose message names both the environment route (`env/.env`) and the
per-request header route — and issues no outbound POST. -/
theorem credential_fallback_and_config_error :
    (∀ (override dflt : Option String), truthy override = true →
        pyOr override dflt = override)
    ∧ (∀ (override dflt : Option String), truthy override = false →
        pyOr override dflt = dflt)
    ∧ (∀ (url st : String) (body : JsonVal) (s : Settings)
        (n p sid ct : Option String) (net : HttpOutcome),
        truthy (pyOr n s.GALAXY_AP_NAME) = false ∨
          truthy (pyOr p s.GALAXY_AP_PASSWORD) = false →
        call_enformion_api url st body s n p sid ct net =
          { result := .apiConnectionError credentialsErrorMsg, posts := [], errorLogs := [] })
    ∧ ContainsStr "env/.env" credentialsErrorMsg
    ∧ ContainsStr "request headers" credentialsErrorMsg := by
  refine ⟨?_, ?_, ?_, ?_, ?_⟩
  · intro o d h; simp [pyOr, h]
  · intro o d h; simp [pyOr, h]
  · exact call_unresolved
  · exact ⟨"API credentials are not configured. Provide (GALAXY_AP_NAME, GALAXY_AP_PASSWORD) via ",
      ", or pass them as request headers (galaxy-ap-name, galaxy-ap-password).", rfl⟩
  · exact ⟨"API credentials are not configured. Provide (GALAXY_AP_NAME, GALAXY_AP_PASSWORD) via env/.env, or pass them as ",
      " (galaxy-ap-name, galaxy-ap-password).", rfl⟩

/-- Witness for C1: with no override and no configured default the resolver
returns the configuration error and issues no POST. -/
theorem credential_fallback_and_config_error_witness :
    truthy (pyOr none ({} : Settings).GALAXY_AP_NAME) = false ∧
    call_enformion_api "https://devapi.enformion.com/Contact/Enrich" "DevAPIContactEnrich"
        (.obj []) {} none none none none (.timeout "t") =
      { result := .apiConnectionError credentialsErrorMsg, posts := [], errorLogs := [] } :=
  ⟨by decide,
   credential_fallback_and_config_error.2.2.1 _ _ _ {} none none none none _
     (Or.inl (by decide))⟩

/-- C2: the contact-enrichment gate accepts a request exactly when at least
two of the four criteria groups {name parts}, {phone}, {address}, {email}
are populated (a name counting once however many parts are filled), rejects
with HTTP 400 and a message naming the four criteria before the resolver is
invoked, and in particular rejects {name only} and {}, accepts {name, phone}
and {phone, address, email}. -/
theorem contact_enrichment_validation_gate :
    (∀ r : ContactEnrichmentRequest,
        validate_contact_enrichment_request r = .ok r ↔ 2 ≤ contactSpecCount r)
    ∧ (∀ r : ContactEnrichmentRequest, contactSpecCount r < 2 →
        validate_contact_enrichment_request r =
          .error { status_code := 400, detail := contactEnrichmentDetail })
    ∧ (∀ (r : ContactEnrichmentRequest) (s : Settings) (ov : Overrides) (net : HttpOutcome),
        contactSpecCount r < 2 →
        contact_enrichment r s ov net =
          .error { status_code := 400, detail := contactEnrichmentDetail })
    ∧ contactSpecCount { first_name := some "Jane", middle_name := some "Q", last_name := some "Doe", phone := some "5551234567" } = 2
    ∧ (ContainsStr "Name" contactEnrichmentDetail
        ∧ ContainsStr "Phone" contactEnrichmentDetail
        ∧ ContainsStr "Address" contactEnrichmentDetail
        ∧ ContainsStr "Email" contactEnrichmentDetail)
    ∧ validate_contact_enrichment_request { first_name := some "Jane", last_name := some "Doe" } =
        .error { status_code := 400, detail := contactEnrichmentDetail }
    ∧ validate_contact_enrichment_request { first_name := some "Jane", phone := some "5551234567" } =
        .ok { first_name := some "Jane", phone := some "5551234567" }
    ∧ validate_contact_enrichment_request
        { phone := some "5551234567", address := some "123 Main St", email := some "jane@example.com" } =
        .ok { phone := some "5551234567", address := some "123 Main St", email := some "jane@example.com" }
    ∧ validate_contact_enrichment_request {} =
        .error { status_code := 400, detail := contactEnrichmentDetail } := by
  refine ⟨?_, validate_contact_reject, ?_, by decide, ⟨?_, ?_, ?_, ?_⟩, rfl, rfl, rfl, rfl⟩
  · intro r
    unfold validate_contact_enrichment_request
    rw [contact_count_eq_spec]
    by_cases h : contactSpecCount r < 2 <;> simp [h] <;> omega
  · intro r s ov net h
    unfold contact_enrichment
    rw [validate_contact_reject r h]
  · exact ⟨"Contact Enrichment requires at least two search criteria from: ",
      ", Phone, Address, or Email.", rfl⟩
  · exact ⟨"Contact Enrichment requires at least two search criteria from: Name, ",
      ", Address, or Email.", rfl⟩
  · exact ⟨"Contact Enrichment requires at least two search criteria from: Name, Phone, ",
      ", or Email.", rfl⟩
  · exact ⟨"Contact Enrichment requires at least two search criteria from: Name, Phone, Address, or ",
      ".", rfl⟩

/-- Witness for C2: a request populating only the email group is rejected by
the endpoint with the HTTP 400 validation error. -/
theorem contact_enrichment_validation_gate_witness :
    contactSpecCount ({ email := some "jane@example.com" } : ContactEnrichmentRequest) < 2 ∧
    contact_enrichment { email := some "jane@example.com" } {} {} (.timeout "t") =
      .error { status_code := 400, detail := contactEnrichmentDetail } :=
  ⟨by decide, contact_enrichment_validation_gate.2.2.1 _ {} {} _ (by decide)⟩

/-- C3: the identity-verification gate accepts a request exactly when at
least two of the five criteria groups {name parts}, {phones}, {address
lines}, {emails}, {ssn} are populated, rejects with HTTP 400 and a message
naming the five criteria before the resolver is invoked, and in particular
rejects {ssn only} and accepts {ssn, one phone} and {name, one email}. -/
theorem id_verification_validation_gate :
    (∀ r : IdVerificationRequest,
        validate_id_verification_request r = .ok r ↔ 2 ≤ idSpecCount r)
    ∧ (∀ r : IdVerificationRequest, idSpecCount r < 2 →
        validate_id_verification_request r =
          .error { status_code := 400, detail := idVerificationDetail })
    ∧ (∀ (r : IdVerificationRequest) (dumped : JsonVal) (s : Settings)
        (ov : Overrides) (net : HttpOutcome),
        idSpecCount r < 2 →
        id_verification r dumped s ov net =
          .error { status_code := 400, detail := idVerificationDetail })
    ∧ (ContainsStr "SSN" idVerificationDetail
        ∧ ContainsStr "Name" idVerificationDetail
        ∧ ContainsStr "Phone" idVerificationDetail
        ∧ ContainsStr "Address" idVerificationDetail
        ∧ ContainsStr "Email" idVerificationDetail)
    ∧ validate_id_verification_request { ssn := some "123456789" } =
        .error { status_code := 400, detail := idVerificationDetail }
    ∧ validate_id_verification_request { ssn := some "123456789", phones := ["5551234567"] } =
        .ok { ssn := some "123456789", phones := ["5551234567"] }
    ∧ validate_id_verification_request { first_name := some "Jane", emails := ["jane@example.com"] } =
        .ok { first_name := some "Jane", emails := ["jane@example.com"] } := by
  refine ⟨?_, validate_id_reject, ?_, ⟨?_, ?_, ?_, ?_, ?_⟩, rfl, rfl, rfl⟩
  · intro r
    unfold validate_id_verification_request
    rw [id_count_eq_spec]
    by_cases h : idSpecCount r < 2 <;> simp [h] <;> omega
  · intro r dumped s ov net h
    unfold id_verification
    rw [validate_id_reject r h]
  · exact ⟨"ID Verification requires at least two criteria from: ",
      ", Name, Phone, Address, or Email.", rfl⟩
  · exact ⟨"ID Verification requires at least two criteria from: SSN, ",
      ", Phone, Address, or Email.", rfl⟩
  · exact ⟨"ID Verification requires at least two criteria from: SSN, Name, ",
      ", Address, or Email.", rfl⟩
  · exact ⟨"ID Verification requires at least two criteria from: SSN, Name, Phone, ",
      ", or Email.", rfl⟩
  · exact ⟨"ID Verification requires at least two criteria from: SSN, Name, Phone, Address, or ",
      ".", rfl⟩

/-- Witness for C3: a request populating only the ssn group is rejected by
the endpoint with the HTTP 400 validation error. -/
theorem id_verification_validation_gate_witness :
    idSpecCount ({ ssn := some "123456789" } : IdVerificationRequest) < 2 ∧
    id_verification { ssn := some "123456789" } (.obj []) {} {} (.timeout "t") =
      .error { status_code := 400, detail := idVerificationDetail } :=
  ⟨by decide, id_verification_validation_gate.2.2.1 _ (.obj []) {} {} _ (by decide)⟩

/-- C4: with resolved credentials the outbound header set is exactly the four
mandatory headers (account name, account secret, search-type tag, JSON
content type) plus `galaxy-client-session-id` and `galaxy-client-type` each
present exactly when the caller supplied a non-empty value; when the session
id is not supplied no such key occurs at all. -/
theorem outbound_header_set :
    (∀ (url st : String) (body : JsonVal) (s : Settings)
        (n p sid ct : Option String) (net : HttpOutcome),
        truthy (pyOr n s.GALAXY_AP_NAME) = true →
        truthy (pyOr p s.GALAXY_AP_PASSWORD) = true →
        (call_enformion_api url st body s n p sid ct net).posts.map OutboundPost.headers =
          [buildHeaders ((pyOr n s.GALAXY_AP_NAME).getD "")
            ((pyOr p s.GALAXY_AP_PASSWORD).getD "") st sid ct])
    ∧ (∀ (an ap st : String) (sid ct : Option String),
        (buildHeaders an ap st sid ct).map Prod.fst =
          ["galaxy-ap-name", "galaxy-ap-password", "galaxy-search-type", "Content-Type"]
          ++ (if truthy sid then ["galaxy-client-session-id"] else [])
          ++ (if truthy ct then ["galaxy-client-type"] else []))
    ∧ (∀ (an ap st : String) (sid ct : Option String),
        (buildHeaders an ap st sid ct).lookup "galaxy-ap-name" = some an
        ∧ (buildHeaders an ap st sid ct).lookup "galaxy-ap-password" = some ap
        ∧ (buildHeaders an ap st sid ct).lookup "galaxy-search-type" = some st
        ∧ (buildHeaders an ap st sid ct).lookup "Content-Type" = some "application/json")
    ∧ (∀ (an ap st : String) (sid ct : Option String), truthy sid = false →
        "galaxy-client-session-id" ∉ (buildHeaders an ap st sid ct).map Prod.fst)
    ∧ (∀ (an ap st : String) (sid ct : Option String), truthy ct = false →
        "galaxy-client-type" ∉ (buildHeaders an ap st sid ct).map Prod.fst)
    ∧ (∀ (an ap st : String) (sid ct : Option String),
        ("galaxy-client-session-id" ∈ (buildHeaders an ap st sid ct).map Prod.fst
          ↔ truthy sid = true)
        ∧ ("galaxy-client-type" ∈ (buildHeaders an ap st sid ct).map Prod.fst
          ↔ truthy ct = true)) := by
  refine ⟨?_, buildHeaders_map_fst, ?_, ?_, ?_, ?_⟩
  · intro url st body s n p sid ct net hn hp
    rw [call_posts_resolved url st body s n p sid ct net hn hp]
    simp
  · intro an ap st sid ct
    refine ⟨?_, ?_, ?_, ?_⟩ <;> simp [buildHeaders, List.lookup]
  · intro an ap st sid ct h
    rw [buildHeaders_map_fst]
    by_cases h2 : truthy ct = true <;> simp [h, h2]
  · intro an ap st sid ct h
    rw [buildHeaders_map_fst]
    by_cases h2 : truthy sid = true <;> simp [h, h2]
  · intro an ap st sid ct
    constructor <;> rw [buildHeaders_map_fst] <;>
      by_cases h1 : truthy sid = true <;> by_cases h2 : truthy ct = true <;>
      simp [h1, h2]

/-- Witness for C4: with configured credentials and no optional client
headers the single POST carries exactly the four mandatory headers. -/
theorem outbound_header_set_witness :
    (call_enformion_api "https://devapi.enformion.com/BusinessV2Search" "BusinessV2Search"
        (.obj []) { GALAXY_AP_NAME := some "acct", GALAXY_AP_PASSWORD := some "secret" }
        none none none none (.response 200 "ok" (some (.obj [])))).posts.map OutboundPost.headers =
      [buildHeaders "acct" "secret" "BusinessV2Search" none none]
    ∧ "galaxy-client-session-id" ∉
        (buildHeaders "acct" "secret" "BusinessV2Search" none none).map Prod.fst :=
  ⟨outbound_header_set.1 _ _ _ _ none none none none _ (by decide) (by decide),
   outbound_header_set.2.2.2.1 "acct" "secret" "BusinessV2Search" none none (by decide)⟩

/-- C5: once the POST is issued, a timeout or transport failure yields an
`APIConnectionError` whose message carries the underlying cause; a non-2xx
status is logged with the status and raw body and surfaces as the fixed
generic `InvalidRequestError` message, independent of the upstream body; a
2xx JSON body is returned verbatim; a 2xx body that fails to parse escapes
as a decode failure distinct from both typed errors. -/
theorem upstream_outcome_classification :
    ∀ (url st : String) (body : JsonVal) (s : Settings) (n p sid ct : Option String),
    truthy (pyOr n s.GALAXY_AP_NAME) = true →
    truthy (pyOr p s.GALAXY_AP_PASSWORD) = true →
    (∀ cause, (call_enformion_api url st body s n p sid ct (.timeout cause)).result =
        .apiConnectionError ("Request to EnformionGO API timed out: " ++ cause))
    ∧ (∀ cause, (call_enformion_api url st body s n p sid ct (.requestError cause)).result =
        .apiConnectionError ("Error communicating with EnformionGO API: " ++ cause))
    ∧ (∀ (status : Nat) (text : String) (j : Option JsonVal), is2xx status = false →
        (call_enformion_api url st body s n p sid ct (.response status text j)).result =
          .invalidRequestError upstreamRejectionMsg
        ∧ (call_enformion_api url st body s n p sid ct (.response status text j)).errorLogs =
          [nonSuccessLogLine status text]
        ∧ ContainsStr (toString status) (nonSuccessLogLine status text)
        ∧ ContainsStr text (nonSuccessLogLine status text))
    ∧ (∀ (status : Nat) (text : String) (j : JsonVal), is2xx status = true →
        (call_enformion_api url st body s n p sid ct (.response status text (some j))).result =
          .success j)
    ∧ (∀ (status : Nat) (text : String), is2xx status = true →
        (call_enformion_api url st body s n p sid ct (.response status text none)).result =
          .jsonDecodeFailure)
    ∧ (∀ m : String, CallResult.jsonDecodeFailure ≠ CallResult.apiConnectionError m
        ∧ CallResult.jsonDecodeFailure ≠ CallResult.invalidRequestError m) := by
  intro url st body s n p sid ct hn hp
  refine ⟨?_, ?_, ?_, ?_, ?_, ?_⟩
  · intro cause; unfold call_enformion_api; simp [hn, hp]
  · intro cause; unfold call_enformion_api; simp [hn, hp]
  · intro status text j hs
    refine ⟨?_, ?_, ?_, ?_⟩
    · unfold call_enformion_api; simp [hn, hp, hs]
    · unfold call_enformion_api; simp [hn, hp, hs]
    · exact ⟨"Invalid request to EnformionGO API. Status: ", ", Response: " ++ text,
        by simp [nonSuccessLogLine, String.append_assoc]⟩
    · exact ⟨"Invalid request to EnformionGO API. Status: " ++ toString status ++ ", Response: ",
        "", by simp [nonSuccessLogLine, String.append_assoc]⟩
  · intro status text j hs; unfold call_enformion_api; simp [hn, hp, hs]
  · intro status text hs; unfold call_enformion_api; simp [hn, hp, hs]
  · intro m; exact ⟨by simp, by simp⟩

/-- Witness for C5: a 422 from upstream surfaces as the generic rejection
message while the status and raw body are logged. -/
theorem upstream_outcome_classification_witness :
    (call_enformion_api "https://devapi.enformion.com/Contact/Enrich" "DevAPIContactEnrich"
        (.obj []) { GALAXY_AP_NAME := some "acct", GALAXY_AP_PASSWORD := some "secret" }
        none none none none (.response 422 "upstream detail" none)).result =
      .invalidRequestError upstreamRejectionMsg :=
  ((upstream_outcome_classification _ _ _ _ none none none none
      (by decide) (by decide)).2.2.1 422 "upstream detail" none (by decide)).1

/-- C6: every resolver invocation issues at most one POST — exactly one when
both credentials resolve and zero otherwise — the set of POSTs issued does
not depend on the network outcome (so no outcome triggers a second attempt),
and any POST issued carries the fixed 15-second timeout. -/
theorem single_post_exactly_once :
    ∀ (url st : String) (body : JsonVal) (s : Settings)
      (n p sid ct : Option String) (net : HttpOutcome),
      (call_enformion_api url st body s n p sid ct net).posts.length ≤ 1
      ∧ ((call_enformion_api url st body s n p sid ct net).posts.length =
          if truthy (pyOr n s.GALAXY_AP_NAME) && truthy (pyOr p s.GALAXY_AP_PASSWORD)
          then 1 else 0)
      ∧ (∀ net', (call_enformion_api url st body s n p sid ct net).posts =
          (call_enformion_api url st body s n p sid ct net').posts)
      ∧ ((call_enformion_api url st body s n p sid ct net).posts.map
          OutboundPost.timeoutSeconds).all (fun t => t == 15) = true := by
  intro url st body s n p sid ct net
  by_cases hn : truthy (pyOr n s.GALAXY_AP_NAME) = true
  · by_cases hp : truthy (pyOr p s.GALAXY_AP_PASSWORD) = true
    · refine ⟨?_, ?_, ?_, ?_⟩
      · rw [call_posts_resolved url st body s n p sid ct net hn hp]; simp
      · rw [call_posts_resolved url st body s n p sid ct net hn hp]; simp [hn, hp]
      · intro net'
        rw [call_posts_resolved url st body s n p sid ct net hn hp,
          call_posts_resolved url st body s n p sid ct net' hn hp]
      · rw [call_posts_resolved url st body s n p sid ct net hn hp]; simp
    · have hp' : truthy (pyOr p s.GALAXY_AP_PASSWORD) = false := by simpa using hp
      refine ⟨?_, ?_, ?_, ?_⟩
      · rw [call_unresolved url st body s n p sid ct net (Or.inr hp')]; simp
      · rw [call_unresolved url st body s n p sid ct net (Or.inr hp')]; simp [hp']
      · intro net'
        rw [call_unresolved url st body s n p sid ct net (Or.inr hp'),
          call_unresolved url st body s n p sid ct net' (Or.inr hp')]
      · rw [call_unresolved url st body s n p sid ct net (Or.inr hp')]; simp
  · have hn' : truthy (pyOr n s.GALAXY_AP_NAME) = false := by simpa using hn
    refine ⟨?_, ?_, ?_, ?_⟩
    · rw [call_unresolved url st body s n p sid ct net (Or.inl hn')]; simp
    · rw [call_unresolved url st body s n p sid ct net (Or.inl hn')]; simp [hn']
    · intro net'
      rw [call_unresolved url st body s n p sid ct net (Or.inl hn'),
        call_unresolved url st body s n p sid ct net' (Or.inl hn')]
    · rw [call_unresolved url st body s n p sid ct net (Or.inl hn')]; simp

/-- Counterexample for C7: none of the `x-`-prefixed header names the claim
asserts is among the override header aliases declared by the route
handlers. -/
theorem x_prefixed_override_headers_not_declared :
    "x-account-name" ∉ overrideHeaderAliases
    ∧ "x-account-secret" ∉ overrideHeaderAliases
    ∧ "x-client-session-id" ∉ overrideHeaderAliases
    ∧ "x-client-type" ∉ overrideHeaderAliases
    ∧ "x-search-type" ∉ overrideHeaderAliases := by
  decide

/-- C7 (amended): the optional override headers are named `galaxy-ap-name`,
`galaxy-ap-password`, `galaxy-client-session-id`, `galaxy-client-type` and
`galaxy-search-type`, and supplied non-empty overrides take effect — the
outbound request is built from the overridden credentials, search type and
client headers. -/
theorem galaxy_override_headers :
    ("galaxy-ap-name" ∈ overrideHeaderAliases
      ∧ "galaxy-ap-password" ∈ overrideHeaderAliases
      ∧ "galaxy-client-session-id" ∈ overrideHeaderAliases
      ∧ "galaxy-client-type" ∈ overrideHeaderAliases
      ∧ "galaxy-search-type" ∈ overrideHeaderAliases)
    ∧ (∀ (payload : JsonVal) (s : Settings) (name pwd styp : String)
        (sid ct : Option String) (net : HttpOutcome),
        name ≠ "" → pwd ≠ "" → styp ≠ "" →
        (contact_enrichment_plus payload s
            { galaxy_ap_name := some name, galaxy_ap_password := some pwd,
              galaxy_client_session_id := sid, galaxy_client_type := ct,
              galaxy_search_type := some styp } net).posts.map OutboundPost.headers =
          [buildHeaders name pwd styp sid ct]) := by
  constructor
  · exact ⟨by decide, by decide, by decide, by decide, by decide⟩
  · intro payload s name pwd styp sid ct net hname hpwd hstyp
    have h1 : pyOr (some name) s.GALAXY_AP_NAME = some name := by
      simp [pyOr, truthy, hname]
    have h2 : pyOr (some pwd) s.GALAXY_AP_PASSWORD = some pwd := by
      simp [pyOr, truthy, hpwd]
    unfold contact_enrichment_plus
    dsimp only
    rw [call_posts_resolved _ _ _ _ _ _ _ _ _
      (by rw [h1]; simp [truthy, hname]) (by rw [h2]; simp [truthy, hpwd])]
    rw [h1, h2]
    simp [pyOrDefault, hstyp]

/-- Witness for C7 (amended): concrete overrides for name, password and
search type are the values used in the outbound headers. -/
theorem galaxy_override_headers_witness :
    (contact_enrichment_plus (.obj [])
        { GALAXY_AP_NAME := some "conf-name", GALAXY_AP_PASSWORD := some "conf-secret" }
        { galaxy_ap_name := some "hdr-name", galaxy_ap_password := some "hdr-secret",
          galaxy_client_session_id := none, galaxy_client_type := none,
          galaxy_search_type := some "CustomType" }
        (.response 200 "ok" (some (.obj [])))).posts.map OutboundPost.headers =
      [buildHeaders "hdr-name" "hdr-secret" "CustomType" none none] :=
  galaxy_override_headers.2 (.obj []) _ "hdr-name" "hdr-secret" "CustomType" none none _
    (by decide) (by decide) (by decide)

/-- Counterexample for C8: a present-but-empty optional field (`email = ""`)
passes the validation gate and is kept by `model_dump(exclude_none=True)`,
so the forwarded body differs from the caller's input with empty/absent
optional fields removed. -/
theorem model_dump_keeps_empty_string_field :
    validate_contact_enrichment_request { phone := some "5551234567", address := some "123 Main St", email := some "" } =
      .ok { phone := some "5551234567", address := some "123 Main St", email := some "" }
    ∧ ContactEnrichmentRequest.model_dump { phone := some "5551234567", address := some "123 Main St", email := some "" } ≠
      specStrippedBody { phone := some "5551234567", address := some "123 Main St", email := some "" } := by
  constructor
  · rfl
  · simp [ContactEnrichmentRequest.model_dump, ContactEnrichmentRequest.dumpFields,
      specStrippedBody, specField, optField, truthy]

theorem validate_contact_ok_eq (r a : ContactEnrichmentRequest)
    (h : validate_contact_enrichment_request r = .ok a) : a = r := by
  unfold validate_contact_enrichment_request at h
  split at h
  · simp at h
  · simp at h
    exact h.symm

theorem call_post_body (url st : String) (body : JsonVal) (s : Settings)
    (n p sid ct : Option String) (net : HttpOutcome) :
    ∀ post ∈ (call_enformion_api url st body s n p sid ct net).posts,
      post.body = body := by
  intro post hpost
  by_cases hn : truthy (pyOr n s.GALAXY_AP_NAME) = true
  · by_cases hp : truthy (pyOr p s.GALAXY_AP_PASSWORD) = true
    · rw [call_posts_resolved url st body s n p sid ct net hn hp] at hpost
      simp at hpost
      rw [hpost]
    · rw [call_unresolved url st body s n p sid ct net
        (Or.inr (by simpa using hp))] at hpost
      simp at hpost
  · rw [call_unresolved url st body s n p sid ct net
      (Or.inl (by simpa using hn))] at hpost
    simp at hpost

/-- C8 (amended): for the schema-backed endpoint the forwarded body is the
caller's input with the `None`-valued (absent) optional fields removed, keys
in declared order and present values kept verbatim — including present
empty strings; for the open-payload endpoint the caller's JSON object is
forwarded unmodified. -/
theorem forwarded_body_transformation :
    (∀ (r : ContactEnrichmentRequest),
        (r.dumpFields.lookup "first_name" = r.first_name.map JsonVal.str)
        ∧ (r.dumpFields.lookup "middle_name" = r.middle_name.map JsonVal.str)
        ∧ (r.dumpFields.lookup "last_name" = r.last_name.map JsonVal.str)
        ∧ (r.dumpFields.lookup "phone" = r.phone.map JsonVal.str)
        ∧ (r.dumpFields.lookup "address" = r.address.map JsonVal.str)
        ∧ (r.dumpFields.lookup "email" = r.email.map JsonVal.str))
    ∧ (∀ (r : ContactEnrichmentRequest),
        r.dumpFields.map Prod.fst =
          (if r.first_name.isSome then ["first_name"] else [])
          ++ (if r.middle_name.isSome then ["middle_name"] else [])
          ++ (if r.last_name.isSome then ["last_name"] else [])
          ++ (if r.phone.isSome then ["phone"] else [])
          ++ (if r.address.isSome then ["address"] else [])
          ++ (if r.email.isSome then ["email"] else []))
    ∧ (∀ (r : ContactEnrichmentRequest) (s : Settings) (ov : Overrides)
        (net : HttpOutcome) (trace : CallTrace),
        contact_enrichment r s ov net = .ok trace →
        ∀ post ∈ trace.posts, post.body = r.model_dump)
    ∧ (∀ (payload : JsonVal) (s : Settings) (ov : Overrides) (net : HttpOutcome),
        ∀ post ∈ (contact_enrichment_plus payload s ov net).posts,
          post.body = payload) := by
  refine ⟨?_, ?_, ?_, ?_⟩
  · rintro ⟨f, m, l, ph, ad, em⟩
    refine ⟨?_, ?_, ?_, ?_, ?_, ?_⟩ <;>
      (cases f <;> cases m <;> cases l <;> cases ph <;> cases ad <;> cases em <;>
        simp [ContactEnrichmentRequest.dumpFields, optField, List.lookup])
  · rintro ⟨f, m, l, ph, ad, em⟩
    cases f <;> cases m <;> cases l <;> cases ph <;> cases ad <;> cases em <;>
      simp [ContactEnrichmentRequest.dumpFields, optField]
  · intro r s ov net trace h
    unfold contact_enrichment at h
    cases hval : validate_contact_enrichment_request r with
    | error e => rw [hval] at h; simp at h
    | ok validated =>
        rw [hval] at h
        simp at h
        have hvr : validated = r := validate_contact_ok_eq r validated hval
        subst hvr
        rw [← h]
        exact call_post_body _ _ _ _ _ _ _ _ _
  · intro payload s ov net
    unfold contact_enrichment_plus
    exact call_post_body _ _ _ _ _ _ _ _ _

/-- Witness for C8 (amended): the open-payload endpoint forwards the
caller's object verbatim in its POST body. -/
theorem forwarded_body_transformation_witness :
    samplePlusPost.body = samplePayload :=
  forwarded_body_transformation.2.2.2 samplePayload sampleSettings {}
    (.response 200 "ok" (some (.obj []))) samplePlusPost (List.mem_singleton.mpr rfl)

/-- C9 (amended): supplying the account-name, account-secret,
client-session-id or client-type override headers with an empty-string value
behaves exactly like omitting them — empty credentials fall back to the
configured defaults and empty client headers are left out of the outbound
header set — and an empty-string search-type falls back to the endpoint's
default tag on the endpoints whose `galaxy-search-type` header is a plain
optional string; on `/person-search`, whose `galaxy-search-type` is
enum-typed with default `Person`, an empty string is instead rejected with a
422 validation error while omitting the header forwards the default tag. -/
theorem empty_override_equals_omitted :
    (∀ (url st : String) (body : JsonVal) (s : Settings)
        (p sid ct : Option String) (net : HttpOutcome),
        call_enformion_api url st body s (some "") p sid ct net =
          call_enformion_api url st body s none p sid ct net)
    ∧ (∀ (url st : String) (body : JsonVal) (s : Settings)
        (n sid ct : Option String) (net : HttpOutcome),
        call_enformion_api url st body s n (some "") sid ct net =
          call_enformion_api url st body s n none sid ct net)
    ∧ (∀ (url st : String) (body : JsonVal) (s : Settings)
        (n p ct : Option String) (net : HttpOutcome),
        call_enformion_api url st body s n p (some "") ct net =
          call_enformion_api url st body s n p none ct net)
    ∧ (∀ (url st : String) (body : JsonVal) (s : Settings)
        (n p sid : Option String) (net : HttpOutcome),
        call_enformion_api url st body s n p sid (some "") net =
          call_enformion_api url st body s n p sid none net)
    ∧ (∀ d : String, pyOrDefault (some "") d = d ∧ pyOrDefault none d = d)
    ∧ (∀ (r : ContactEnrichmentRequest) (s : Settings) (net : HttpOutcome)
        (n p sid ct : Option String),
        contact_enrichment r s
            { galaxy_ap_name := n, galaxy_ap_password := p,
              galaxy_client_session_id := sid, galaxy_client_type := ct,
              galaxy_search_type := some "" } net =
          contact_enrichment r s
            { galaxy_ap_name := n, galaxy_ap_password := p,
              galaxy_client_session_id := sid, galaxy_client_type := ct,
              galaxy_search_type := none } net)
    ∧ (∀ (payload : JsonVal) (s : Settings) (net : HttpOutcome)
        (n p sid ct : Option String),
        contact_enrichment_plus payload s
            { galaxy_ap_name := n, galaxy_ap_password := p,
              galaxy_client_session_id := sid, galaxy_client_type := ct,
              galaxy_search_type := some "" } net =
          contact_enrichment_plus payload s
            { galaxy_ap_name := n, galaxy_ap_password := p,
              galaxy_client_session_id := sid, galaxy_client_type := ct,
              galaxy_search_type := none } net)
    ∧ (∀ (an ap st : String) (ct : Option String),
        buildHeaders an ap st (some "") ct = buildHeaders an ap st none ct)
    ∧ (∀ (an ap st : String) (sid : Option String),
        buildHeaders an ap st sid (some "") = buildHeaders an ap st sid none)
    ∧ (∀ (dumped : JsonVal) (s : Settings) (net : HttpOutcome)
        (n p sid ct : Option String),
        person_search dumped s
            { galaxy_ap_name := n, galaxy_ap_password := p,
              galaxy_client_session_id := sid, galaxy_client_type := ct,
              galaxy_search_type := some "" } net =
          .error { status_code := 422, detail := personSearchTypeValidationDetail })
    ∧ (∀ (dumped : JsonVal) (s : Settings) (net : HttpOutcome)
        (n p sid ct : Option String),
        person_search dumped s
            { galaxy_ap_name := n, galaxy_ap_password := p,
              galaxy_client_session_id := sid, galaxy_client_type := ct,
              galaxy_search_type := none } net =
          .ok (call_enformion_api s.PERSON_SEARCH_API_URL "Person" dumped s
            n p sid ct net)) := by
  refine ⟨?_, ?_, ?_, ?_, ?_, ?_, ?_, ?_, ?_, ?_, ?_⟩
  · intro url st body s p sid ct net; rfl
  · intro url st body s n sid ct net; rfl
  · intro url st body s n p ct net; rfl
  · intro url st body s n p sid net; rfl
  · intro d; exact ⟨rfl, rfl⟩
  · intro r s net n p sid ct; rfl
  · intro payload s net n p sid ct; rfl
  · intro an ap st ct; rfl
  · intro an ap st sid; rfl
  · intro dumped s net n p sid ct; rfl
  · intro dumped s net n p sid ct; rfl

/-- Counterexample for C9: on `/person-search` an empty-string
`galaxy-search-type` header is rejected with a 422 validation error by the
enum-typed header parameter, while omitting the header forwards the request
with the default tag `Person` — the two behave differently, so an
empty-string search-type does not fall back to the default tag on every
endpoint. -/
theorem person_search_empty_search_type_not_omitted :
    person_search (.obj []) sampleSettings { galaxy_search_type := some "" }
        (.response 200 "ok" (some (.obj []))) =
      .error { status_code := 422, detail := personSearchTypeValidationDetail }
    ∧ person_search (.obj []) sampleSettings {}
        (.response 200 "ok" (some (.obj []))) =
      .ok (call_enformion_api sampleSettings.PERSON_SEARCH_API_URL "Person"
        (.obj []) sampleSettings none none none none
        (.response 200 "ok" (some (.obj []))))
    ∧ person_search (.obj []) sampleSettings { galaxy_search_type := some "" }
        (.response 200 "ok" (some (.obj []))) ≠
      person_search (.obj []) sampleSettings {}
        (.response 200 "ok" (some (.obj []))) := by
  refine ⟨rfl, rfl, ?_⟩
  intro h
  exact Except.noConfusion h

/-- C10: `/business-search` and `/business-search-v2` are behaviorally
equivalent — same request model, same destination URL constant
(`BUSINESS_SEARCH_V2_API_URL`), same default search-type tag
`"BusinessV2Search"`, same result on every input. -/
theorem business_search_endpoints_equivalent :
    (∀ (r : BusinessSearchRequest) (s : Settings) (ov : Overrides) (net : HttpOutcome),
        business_search r s ov net = business_search_v2 r s ov net)
    ∧ (∀ (r : BusinessSearchRequest) (s : Settings) (net : HttpOutcome) (name pwd : String),
        name ≠ "" → pwd ≠ "" →
        (business_search r s
            { galaxy_ap_name := some name, galaxy_ap_password := some pwd } net).posts =
          [{ url := s.BUSINESS_SEARCH_V2_API_URL, body := r.model_dump,
             headers := buildHeaders name pwd "BusinessV2Search" none none,
             timeoutSeconds := 15 }])
    ∧ ({} : Settings).BUSINESS_SEARCH_V2_API_URL =
        "https://devapi.enformion.com/BusinessV2Search" := by
  refine ⟨?_, ?_, rfl⟩
  · intro r s ov net; rfl
  · intro r s net name pwd hname hpwd
    have h1 : pyOr (some name) s.GALAXY_AP_NAME = some name := by
      simp [pyOr, truthy, hname]
    have h2 : pyOr (some pwd) s.GALAXY_AP_PASSWORD = some pwd := by
      simp [pyOr, truthy, hpwd]
    unfold business_search
    dsimp only
    rw [call_posts_resolved _ _ _ _ _ _ _ _ _
      (by rw [h1]; simp [truthy, hname]) (by rw [h2]; simp [truthy, hpwd])]
    rw [h1, h2]
    simp [pyOrDefault]

/-- Witness for C10: a concrete request through `/business-search` posts to
the V2 URL with the `"BusinessV2Search"` tag and the supplied overrides. -/
theorem business_search_endpoints_equivalent_witness :
    (business_search ⟨[]⟩ sampleSettings
        { galaxy_ap_name := some "hdr-name", galaxy_ap_password := some "hdr-secret" }
        (.timeout "t")).posts =
      [{ url := "https://devapi.enformion.com/BusinessV2Search", body := .obj [],
         headers := buildHeaders "hdr-name" "hdr-secret" "BusinessV2Search" none none,
         timeoutSeconds := 15 }] :=
  business_search_endpoints_equivalent.2.1 ⟨[]⟩ sampleSettings (.timeout "t")
    "hdr-name" "hdr-secret" (by decide) (by decide)

end EnformionGO
